import Mathlib

/-!
Verification of the `Ruler` timeline component (src/src/data/video.ts).

The component draws a zoomable time ruler onto a canvas and maps pointer
gestures back to timeline positions.  We embed the coordinate math of
`draw`, `handleTimelineClick`, `handleMouseDown` / the document-level drag
listeners, and `resize` as pure Lean functions over exact rationals.

Canvas side effects are modelled as a list of emitted operations
(`CanvasOp`).  Bookkeeping calls that carry no geometry (`save`,
`restore`, style and font assignments, `translate(0.5, 0)`, the
per-line `beginPath`/`moveTo`/`lineTo` pairs collapsed into a single
`strokeLine`) are elided; the order of the geometric operations
(`clearRect`, `fillText`, `strokeLine`) is preserved exactly.

The numeric constants `PREVIEW_FRAME_WIDTH`, `TIMELINE_OFFSET_X` and
`TIMELINE_OFFSET_CANVAS_LEFT` come from `../constants/constants`, which is
not part of this repository snapshot; they are modelled as abstract
rational parameters (fields of `RulerEnv`), per the spec's description of
them as externally configurable numeric constants with
`zoomUnit = unit × zoom × basePixelsPerFrame` kept positive.
`textFormat` (default `formatTimelineUnit`, also external) and the
context's `measureText` are modelled as abstract function parameters.
-/

/-- `scale` read from the store: `{ zoom, unit, segments }`. -/
structure ScaleConfig where
  zoom : ℚ
  unit : ℚ
  segments : ℕ
deriving DecidableEq

/-- The inputs of the `Ruler` component that the drawing and gesture code
reads: the external numeric constants, the props (with their defaults
supplied by the caller of the model), the pluggable text formatter, the
context's text-measuring function and the current `scale`. -/
structure RulerEnv where
  PREVIEW_FRAME_WIDTH : ℚ
  TIMELINE_OFFSET_X : ℚ
  TIMELINE_OFFSET_CANVAS_LEFT : ℚ
  longLineSize : ℚ
  shortLineSize : ℚ
  offsetX : ℚ
  textOffsetY : ℚ
  textFormat : ℚ → String
  measureText : String → ℚ
  scale : ScaleConfig

/-- The default of the `offsetX` prop:
`offsetX = TIMELINE_OFFSET_X + TIMELINE_OFFSET_CANVAS_LEFT`. -/
def defaultOffsetX (E : RulerEnv) : ℚ :=
  E.TIMELINE_OFFSET_X + E.TIMELINE_OFFSET_CANVAS_LEFT

/-- `const zoomUnit = unit * zoom * PREVIEW_FRAME_WIDTH;` -/
def zoomUnit (E : RulerEnv) : ℚ :=
  E.scale.unit * E.scale.zoom * E.PREVIEW_FRAME_WIDTH

/-- Geometric canvas operations emitted by `draw`, in emission order. -/
inductive CanvasOp where
  | clearRect (x y w h : ℚ)
  | fillText (text : String) (x y : ℚ)
  | strokeLine (color : String) (x1 y1 x2 y2 : ℚ)
deriving DecidableEq

/-- Whether an operation is a `fillText`. -/
def CanvasOp.isFillText : CanvasOp → Bool
  | .fillText _ _ _ => true
  | _ => false

/-- Whether an operation is a stroked tick line. -/
def CanvasOp.isStrokeLine : CanvasOp → Bool
  | .strokeLine _ _ _ _ _ => true
  | _ => false

/-- `const minRange = Math.floor(scrollPos / zoomUnit);` -/
def minRange (E : RulerEnv) (scrollPos : ℚ) : ℤ :=
  ⌊scrollPos / zoomUnit E⌋

/-- `const maxRange = Math.ceil((scrollPos + width) / zoomUnit);` -/
def maxRange (E : RulerEnv) (scrollPos width : ℚ) : ℤ :=
  ⌈(scrollPos + width) / zoomUnit E⌉

/-- `const length = maxRange - minRange;` -/
def rangeLength (E : RulerEnv) (scrollPos width : ℚ) : ℤ :=
  maxRange E scrollPos width - minRange E scrollPos

/-- The text-label position formula of the first loop of `draw`
(lines 193–194): `startValue = (value * zoomUnit) / zoom;`
`startPos = (startValue - scrollPos / zoom) * zoom;`. -/
def textTickPos (zoom zu scrollPos : ℚ) (value : ℤ) : ℚ :=
  ((value : ℚ) * zu / zoom - scrollPos / zoom) * zoom

/-- The tick-mark position formula of the second loop of `draw`
(lines 213–214): `startValue = value * zoomUnit;`
`startPos = startValue - scrollPos + offsetX;`. -/
def lineTickStart (zu scrollPos offX : ℚ) (value : ℤ) : ℚ :=
  (value : ℚ) * zu - scrollPos + offX

/-- Body of the first (text) loop of `draw` for a given tick index
`value = i + minRange`: skips negative indices and indices whose
`startPos` lies outside `[-zoomUnit, width + zoomUnit)`, otherwise emits
the centred label. -/
def textOpFor (E : RulerEnv) (scrollPos width : ℚ) (value : ℤ) : Option CanvasOp :=
  if value < 0 then none
  else
    let startValue := ((value : ℚ) * zoomUnit E) / E.scale.zoom
    let startPos := (startValue - scrollPos / E.scale.zoom) * E.scale.zoom
    if startPos < -(zoomUnit E) ∨ startPos ≥ width + zoomUnit E then none
    else
      let text := E.textFormat startValue
      let textWidth := E.measureText text
      let textOffsetX := -textWidth / 2
      some (.fillText text (startPos + textOffsetX + E.offsetX) E.textOffsetY)

/-- Body of the second (line) loop of `draw` for a given tick index
`value = i + minRange`: skips negative indices, then emits one sub-tick
per segment index `j ∈ [0, segments)` whose position lies inside
`[0, width)`; `j % segments` selects short vs long line size, and the
stroke color is chosen by comparing the selected size with
`shortLineSize`. -/
def lineOpsFor (E : RulerEnv) (scrollPos width : ℚ) (value : ℤ) : List CanvasOp :=
  if value < 0 then []
  else
    let startValue := (value : ℚ) * zoomUnit E
    let startPos := startValue - scrollPos + E.offsetX
    (List.range E.scale.segments).filterMap (fun (j : ℕ) =>
      let pos := startPos + ((j : ℚ) / (E.scale.segments : ℚ)) * zoomUnit E
      if pos < 0 ∨ pos ≥ width then none
      else
        let lineSize := if j % E.scale.segments ≠ 0 then E.shortLineSize else E.longLineSize
        let color := if lineSize = E.shortLineSize then "#a1a1aa" else "#d4d4d8"
        let origin : ℚ := 32
        some (.strokeLine color pos origin pos (origin + lineSize)))

/-- All labels emitted by the first loop of `draw`, in loop order
(`for (let i = 0; i <= length; ++i)` with `value = i + minRange`). -/
def textOps (E : RulerEnv) (scrollPos width : ℚ) : List CanvasOp :=
  (List.range (rangeLength E scrollPos width + 1).toNat).filterMap
    (fun (i : ℕ) => textOpFor E scrollPos width ((i : ℤ) + minRange E scrollPos))

/-- All tick strokes emitted by the second loop of `draw`, in loop order. -/
def lineOps (E : RulerEnv) (scrollPos width : ℚ) : List CanvasOp :=
  (List.range (rangeLength E scrollPos width + 1).toNat).flatMap
    (fun (i : ℕ) => lineOpsFor E scrollPos width ((i : ℤ) + minRange E scrollPos))

/-- `draw(context, scrollPos, width, height)`: clears the surface, then
emits all text labels, then all tick strokes. -/
def draw (E : RulerEnv) (scrollPos width height : ℚ) : List CanvasOp :=
  CanvasOp.clearRect 0 0 width height ::
    (textOps E scrollPos width ++ lineOps E scrollPos width)

/-- `handleTimelineClick(clickX)`: returns `some v` when the click invokes
`onClick(v)` and `none` when the handler returns without invoking it.
`canvasPresent` models `canvasRef.current !== null` and `onClickPresent`
models the `onClick` prop being supplied; `rectLeft` is
`canvas.getBoundingClientRect().left`.  The source mutates no state in
this handler (the `console.log` is elided). -/
def handleTimelineClick (E : RulerEnv) (canvasPresent onClickPresent : Bool)
    (rectLeft scrollPos clickX : ℚ) : Option ℚ :=
  if !canvasPresent || !onClickPresent then none
  else
    let timelineStart := E.TIMELINE_OFFSET_X + E.TIMELINE_OFFSET_CANVAS_LEFT
    let relativePosition := clickX - rectLeft - timelineStart
    if relativePosition ≥ 0 then some (relativePosition + scrollPos) else none

/-- Pointer events the ruler reacts to: `onMouseDown` on the clickable
overlay, and the document-level `mousemove` / `mouseup` listeners that are
registered exactly while `isDragging` is true. -/
inductive RulerEvent where
  | mouseDown (clientX : ℚ)
  | mouseMove (clientX : ℚ)
  | mouseUp
deriving DecidableEq

/-- One step of the drag state machine.  State is the `isDragging` flag
(the document `mousemove`/`mouseup` listeners are registered exactly while
it is true, so a move while `isDragging = false` reaches no handler).
`handleMouseDown` sets `isDragging` and immediately runs
`handleTimelineClick(event.clientX)`; a document `mousemove` runs it only
while dragging; `mouseup` clears `isDragging` (and the effect cleanup
removes both listeners).  Returns the new state and the `onClick` argument,
if any. -/
def rulerStep (E : RulerEnv) (canvasPresent onClickPresent : Bool)
    (rectLeft scrollPos : ℚ) (isDragging : Bool) :
    RulerEvent → Bool × Option ℚ
  | .mouseDown x =>
      (true, handleTimelineClick E canvasPresent onClickPresent rectLeft scrollPos x)
  | .mouseMove x =>
      (isDragging,
       if isDragging then handleTimelineClick E canvasPresent onClickPresent rectLeft scrollPos x
       else none)
  | .mouseUp => (false, none)

/-- Runs a sequence of pointer events through the drag state machine and
collects the sequence of `onClick` invocation arguments, in order. -/
def runEvents (E : RulerEnv) (canvasPresent onClickPresent : Bool)
    (rectLeft scrollPos : ℚ) (isDragging : Bool) :
    List RulerEvent → List ℚ
  | [] => []
  | e :: es =>
      let s := rulerStep E canvasPresent onClickPresent rectLeft scrollPos isDragging e
      s.2.toList ++ runEvents E canvasPresent onClickPresent rectLeft scrollPos s.1 es

/-- Side effects performed by `resize`, in execution order. -/
inductive SurfaceOp where
  | setBufferWidth (w : ℚ)
  | setBufferHeight (h : ℚ)
  | drawCall (scrollPos width height : ℚ)
  | setSizeState (w h : ℚ)
deriving DecidableEq

/-- `resize(canvas, context, scrollPos)`: no-ops when canvas or context is
null; otherwise reads `width` from `offsetParent?.offsetWidth ??
canvas.offsetWidth` and `height` from `canvasSize.height`, sets the
canvas backing-buffer dimensions, calls `draw` with the same context, the
given `scrollPos` and the new width, and finally stores the new size in
state.  The returned list is the trace of those side effects in order. -/
def resize (canvasPresent contextPresent : Bool)
    (offsetParentWidth : Option ℚ) (canvasOffsetWidth : ℚ)
    (canvasSizeHeight : ℚ) (scrollPos : ℚ) : List SurfaceOp :=
  if !canvasPresent || !contextPresent then []
  else
    let width := offsetParentWidth.getD canvasOffsetWidth
    let height := canvasSizeHeight
    [SurfaceOp.setBufferWidth width, SurfaceOp.setBufferHeight height,
     SurfaceOp.drawCall scrollPos width height, SurfaceOp.setSizeState width height]

/-- A concrete environment for instantiating theorems: unit preview-frame
width, the given offset constants, prop defaults `longLineSize = 8` and
`shortLineSize = 6`, a formatter rendering every value as the empty string
and a measurer reporting width `0`. -/
def testEnv (tx tcl offX zoom unit : ℚ) (segments : ℕ) : RulerEnv :=
  { PREVIEW_FRAME_WIDTH := 1
    TIMELINE_OFFSET_X := tx
    TIMELINE_OFFSET_CANVAS_LEFT := tcl
    longLineSize := 8
    shortLineSize := 6
    offsetX := offX
    textOffsetY := 12
    textFormat := fun _ => ""
    measureText := fun _ => 0
    scale := ⟨zoom, unit, segments⟩ }

/-- The sub-tick marks of one tick-index span as the spec describes them:
`segments` evenly spaced sub-ticks at `startPos + (j/segments) * zoomUnit`
for `j ∈ [0, segments)`, skipping positions outside `[0, width)`; the
`j = 0` sub-tick uses the long line size and the prominent stroke color,
every `j ≥ 1` sub-tick the short line size and the muted color. -/
def subTicksSpec (startPos zu width long short : ℚ) (segments : ℕ) : List CanvasOp :=
  (List.range segments).filterMap (fun (j : ℕ) =>
    let pos := startPos + ((j : ℚ) / (segments : ℚ)) * zu
    if pos < 0 ∨ pos ≥ width then none
    else if j = 0 then some (.strokeLine "#d4d4d8" pos 32 pos (32 + long))
    else some (.strokeLine "#a1a1aa" pos 32 pos (32 + short)))

/-- Anything the text loop emits is a `fillText` anchored at
`textOffsetY`. -/
theorem textOpFor_shape (E : RulerEnv) (scrollPos width : ℚ) (value : ℤ)
    (op : CanvasOp) (h : textOpFor E scrollPos width value = some op) :
    ∃ t x, op = CanvasOp.fillText t x E.textOffsetY := by
  simp only [textOpFor] at h
  split at h
  · exact absurd h (by simp)
  · split at h
    · exact absurd h (by simp)
    · exact ⟨_, _, (Option.some_inj.mp h).symm⟩

/-- Anything the line loop emits is a vertical stroke at a position inside
`[0, width)`. -/
theorem lineOpsFor_shape (E : RulerEnv) (scrollPos width : ℚ) (value : ℤ)
    (op : CanvasOp) (h : op ∈ lineOpsFor E scrollPos width value) :
    ∃ c pos ls, op = CanvasOp.strokeLine c pos 32 pos (32 + ls) ∧
      0 ≤ pos ∧ pos < width := by
  simp only [lineOpsFor] at h
  split at h
  · exact absurd h (by simp)
  · rw [List.mem_filterMap] at h
    obtain ⟨j, -, hj⟩ := h
    split at hj
    · exact absurd hj (by simp)
    · next hguard =>
      push_neg at hguard
      exact ⟨_, _, _, (Option.some_inj.mp hj).symm, hguard.1, hguard.2⟩

/-- C1: for every `scrollOffset ≥ 0`, `viewportWidth ≥ 0`, `zoom > 0`,
`unit > 0` and `segments ≥ 1` (with the positive preview-frame-width
constant), every sub-tick mark actually stroked by `draw` has both of its
x-coordinates inside `[-zoomUnit, viewportWidth + zoomUnit]`, and a tick
whose time index is negative is never drawn, neither as a label nor as a
mark. -/
theorem draw_stroke_slack_and_no_negative_ticks (E : RulerEnv)
    (scrollPos width height : ℚ)
    (hsp : 0 ≤ scrollPos) (hw : 0 ≤ width) (hz : 0 < E.scale.zoom)
    (hu : 0 < E.scale.unit) (hseg : 1 ≤ E.scale.segments)
    (hpfw : 0 < E.PREVIEW_FRAME_WIDTH) :
    (∀ op ∈ draw E scrollPos width height, ∀ c x1 y1 x2 y2,
        op = CanvasOp.strokeLine c x1 y1 x2 y2 →
        (-(zoomUnit E) ≤ x1 ∧ x1 ≤ width + zoomUnit E) ∧
        (-(zoomUnit E) ≤ x2 ∧ x2 ≤ width + zoomUnit E)) ∧
    (∀ value : ℤ, value < 0 →
        textOpFor E scrollPos width value = none ∧
        lineOpsFor E scrollPos width value = []) := by
  have hzu : 0 < zoomUnit E := by
    unfold zoomUnit
    exact mul_pos (mul_pos hu hz) hpfw
  constructor
  · intro op hop c x1 y1 x2 y2 heq
    subst heq
    simp only [draw, List.mem_cons, List.mem_append] at hop
    rcases hop with h | h | h
    · exact absurd h (by simp)
    · rw [textOps, List.mem_filterMap] at h
      obtain ⟨i, -, hi⟩ := h
      obtain ⟨t, x, ht⟩ := textOpFor_shape _ _ _ _ _ hi
      exact absurd ht (by simp)
    · rw [lineOps, List.mem_flatMap] at h
      obtain ⟨i, -, hi⟩ := h
      obtain ⟨c2, pos, ls, hop2, h0, hw2⟩ := lineOpsFor_shape _ _ _ _ _ hi
      obtain ⟨-, hx1, -, hx2, -⟩ := CanvasOp.strokeLine.inj hop2
      subst hx1
      subst hx2
      exact ⟨⟨by linarith, by linarith⟩, ⟨by linarith, by linarith⟩⟩
  · intro value hv
    constructor
    · rw [textOpFor, if_pos hv]
    · rw [lineOpsFor, if_pos hv]

/-- Witness for C1: hypotheses hold at `scrollOffset = 3`,
`viewportWidth = 100`, zoom = unit = 1, segments = 4, and the tick of
index `-1` contributes no label and no mark there. -/
theorem draw_stroke_slack_and_no_negative_ticks_witness :
    (0 ≤ (3 : ℚ) ∧ 0 ≤ (100 : ℚ) ∧ 0 < (testEnv 10 0 10 1 1 4).scale.zoom ∧
      0 < (testEnv 10 0 10 1 1 4).scale.unit ∧
      1 ≤ (testEnv 10 0 10 1 1 4).scale.segments ∧
      0 < (testEnv 10 0 10 1 1 4).PREVIEW_FRAME_WIDTH) ∧
    textOpFor (testEnv 10 0 10 1 1 4) 3 100 (-1) = none ∧
    lineOpsFor (testEnv 10 0 10 1 1 4) 3 100 (-1) = [] :=
  ⟨⟨by norm_num, by norm_num, by norm_num [testEnv], by norm_num [testEnv],
      by norm_num [testEnv], by norm_num [testEnv]⟩,
    (draw_stroke_slack_and_no_negative_ticks (testEnv 10 0 10 1 1 4) 3 100 40
      (by norm_num) (by norm_num) (by norm_num [testEnv]) (by norm_num [testEnv])
      (by norm_num [testEnv]) (by norm_num [testEnv])).2 (-1) (by norm_num)⟩

/-- C3: `handleTimelineClick` invokes the callback iff the canvas is
present, the callback is supplied and the computed relative position
(`clientX` minus region left minus the leading offset
`TIMELINE_OFFSET_X + TIMELINE_OFFSET_CANVAS_LEFT`) is nonnegative, and
then its argument is exactly that relative position plus `scrollPos`;
in every other case no callback fires (the handler, which touches no
state, returns `none`). -/
theorem click_callback_iff (E : RulerEnv) (canvasPresent onClickPresent : Bool)
    (rectLeft scrollPos clickX : ℚ) :
    (∀ v : ℚ,
      handleTimelineClick E canvasPresent onClickPresent rectLeft scrollPos clickX
          = some v ↔
        canvasPresent = true ∧ onClickPresent = true ∧
        0 ≤ clickX - rectLeft - (E.TIMELINE_OFFSET_X + E.TIMELINE_OFFSET_CANVAS_LEFT) ∧
        v = clickX - rectLeft - (E.TIMELINE_OFFSET_X + E.TIMELINE_OFFSET_CANVAS_LEFT)
              + scrollPos) ∧
    (handleTimelineClick E canvasPresent onClickPresent rectLeft scrollPos clickX
        = none ↔
      ¬(canvasPresent = true ∧ onClickPresent = true ∧
        0 ≤ clickX - rectLeft - (E.TIMELINE_OFFSET_X + E.TIMELINE_OFFSET_CANVAS_LEFT))) := by
  simp only [handleTimelineClick]
  cases canvasPresent <;> cases onClickPresent <;> simp [ge_iff_le] <;>
    by_cases hc :
      0 ≤ clickX - rectLeft - (E.TIMELINE_OFFSET_X + E.TIMELINE_OFFSET_CANVAS_LEFT) <;>
    simp [hc, eq_comm]

/-- C5: in exact arithmetic the label-anchor formula of the text loop,
`(value * zoomUnit / zoom - scrollPos / zoom) * zoom`, equals the stroke
formula `value * zoomUnit - scrollPos` whenever `zoom > 0`, and after both
add `offsetX` the label anchor coincides with the mark position, so labels
align exactly under their major ticks at every zoom level. -/
theorem label_position_matches_mark_position (zoom zu scrollPos offX : ℚ)
    (value : ℤ) (hz : 0 < zoom) :
    textTickPos zoom zu scrollPos value = (value : ℚ) * zu - scrollPos ∧
    textTickPos zoom zu scrollPos value + offX
      = lineTickStart zu scrollPos offX value := by
  have h : textTickPos zoom zu scrollPos value = (value : ℚ) * zu - scrollPos := by
    rw [textTickPos, ← sub_div, div_mul_cancel₀ _ hz.ne']
  exact ⟨h, by rw [h, lineTickStart]⟩

/-- Witness for C5 at `zoom = 2`, `zoomUnit = 7`, `scrollPos = 3`,
`offsetX = 11`, `value = 5`. -/
theorem label_position_matches_mark_position_witness :
    (0 : ℚ) < 2 ∧
    (textTickPos 2 7 3 5 = ((5 : ℤ) : ℚ) * 7 - 3 ∧
      textTickPos 2 7 3 5 + 11 = lineTickStart 7 3 11 5) :=
  ⟨by norm_num, label_position_matches_mark_position 2 7 3 11 5 (by norm_num)⟩

/-- C8: `draw` emits the clear first, then all text labels, then all tick
strokes: the emitted list is literally `clearRect` followed by the text
loop's output (all `fillText`, in increasing loop order) followed by the
line loop's output (all `strokeLine`, in increasing loop order). -/
theorem draw_emits_labels_before_marks (E : RulerEnv) (scrollPos width height : ℚ) :
    draw E scrollPos width height =
      CanvasOp.clearRect 0 0 width height ::
        (textOps E scrollPos width ++ lineOps E scrollPos width) ∧
    (∀ op ∈ textOps E scrollPos width, op.isFillText = true) ∧
    (∀ op ∈ lineOps E scrollPos width, op.isStrokeLine = true) := by
  refine ⟨rfl, ?_, ?_⟩
  · intro op hop
    rw [textOps, List.mem_filterMap] at hop
    obtain ⟨i, -, hi⟩ := hop
    obtain ⟨t, x, rfl⟩ := textOpFor_shape _ _ _ _ _ hi
    rfl
  · intro op hop
    rw [lineOps, List.mem_flatMap] at hop
    obtain ⟨i, -, hi⟩ := hop
    obtain ⟨c, pos, ls, rfl, -, -⟩ := lineOpsFor_shape _ _ _ _ _ hi
    rfl

/-- C9: with a non-null canvas and context, `resize` first sets the
backing-buffer width (to the container's current width) and height (to
the configured height), then synchronously calls `draw` with the same
scroll position and that new width, then stores the new size — the
surface is never left resized but not redrawn. -/
theorem resize_sets_buffer_then_draws (canvasPresent contextPresent : Bool)
    (offsetParentWidth : Option ℚ) (canvasOffsetWidth canvasSizeHeight scrollPos : ℚ)
    (hc : canvasPresent = true) (hctx : contextPresent = true) :
    resize canvasPresent contextPresent offsetParentWidth canvasOffsetWidth
        canvasSizeHeight scrollPos =
      [SurfaceOp.setBufferWidth (offsetParentWidth.getD canvasOffsetWidth),
       SurfaceOp.setBufferHeight canvasSizeHeight,
       SurfaceOp.drawCall scrollPos (offsetParentWidth.getD canvasOffsetWidth)
         canvasSizeHeight,
       SurfaceOp.setSizeState (offsetParentWidth.getD canvasOffsetWidth)
         canvasSizeHeight] := by
  subst hc
  subst hctx
  rfl

/-- Witness for C9: a container width of 300 with canvas and context
present yields the set-set-draw-store trace. -/
theorem resize_sets_buffer_then_draws_witness :
    resize true true (some 300) 200 40 12 =
      [SurfaceOp.setBufferWidth 300, SurfaceOp.setBufferHeight 40,
       SurfaceOp.drawCall 12 300 40, SurfaceOp.setSizeState 300 40] := by
  simpa using
    resize_sets_buffer_then_draws true true (some 300) 200 40 12 rfl rfl

/-- C2 counterexample: at zoom = unit = preview-frame-width = 1 (so
`zoomUnit = 1`), `scrollOffset = 5` and tick index `i = 0`, the clientX
prescribed by the claim (`i * zoomUnit - scrollOffset` plus the region's
left edge `0` plus the leading offset) gives `relativePosition = -5 < 0`,
so no callback fires at all — the claim predicts an invocation with
`i * zoomUnit = 0`. -/
theorem click_roundtrip_counterexample :
    handleTimelineClick (testEnv 0 0 0 1 1 4) true true 0 5
        (((0 : ℤ) : ℚ) * zoomUnit (testEnv 0 0 0 1 1 4) - 5 + 0 +
          defaultOffsetX (testEnv 0 0 0 1 1 4))
      = none := by
  norm_num [handleTimelineClick, zoomUnit, defaultOffsetX, testEnv]

/-- C2 (amended): for every tick index `i`, `zoom > 0`, `unit > 0` and
`scrollOffset ≥ 0` with additionally `i * zoomUnit ≥ scrollOffset` (so the
computed relative position is nonnegative), feeding `handleTimelineClick`
a clientX equal to the drawn tick position `i * zoomUnit - scrollOffset`
plus the region's left edge plus the leading offset invokes the callback
with exactly `i * zoomUnit`. -/
theorem click_roundtrip_at_default_offset (E : RulerEnv) (i : ℤ)
    (rectLeft scrollPos : ℚ)
    (hz : 0 < E.scale.zoom) (hu : 0 < E.scale.unit) (hsp : 0 ≤ scrollPos)
    (hge : scrollPos ≤ (i : ℚ) * zoomUnit E) :
    handleTimelineClick E true true rectLeft scrollPos
        ((i : ℚ) * zoomUnit E - scrollPos + rectLeft + defaultOffsetX E)
      = some ((i : ℚ) * zoomUnit E) := by
  have key : (i : ℚ) * zoomUnit E - scrollPos + rectLeft + defaultOffsetX E
      - rectLeft - (E.TIMELINE_OFFSET_X + E.TIMELINE_OFFSET_CANVAS_LEFT)
      = (i : ℚ) * zoomUnit E - scrollPos := by
    rw [defaultOffsetX]
    ring
  simp only [handleTimelineClick, Bool.not_true, Bool.or_self, Bool.false_eq_true,
    if_false, key, ge_iff_le]
  rw [if_pos (by linarith)]
  congr 1
  ring

/-- Witness for C2 (amended) at zoom = 1, unit = 2, `i = 2`,
`scrollOffset = 1`, region left 5. -/
theorem click_roundtrip_at_default_offset_witness :
    (0 < (testEnv 3 4 7 1 2 4).scale.zoom ∧ 0 < (testEnv 3 4 7 1 2 4).scale.unit ∧
      (0 : ℚ) ≤ 1 ∧ (1 : ℚ) ≤ ((2 : ℤ) : ℚ) * zoomUnit (testEnv 3 4 7 1 2 4)) ∧
    handleTimelineClick (testEnv 3 4 7 1 2 4) true true 5 1
        (((2 : ℤ) : ℚ) * zoomUnit (testEnv 3 4 7 1 2 4) - 1 + 5 +
          defaultOffsetX (testEnv 3 4 7 1 2 4))
      = some (((2 : ℤ) : ℚ) * zoomUnit (testEnv 3 4 7 1 2 4)) :=
  ⟨⟨by norm_num [testEnv], by norm_num [testEnv], by norm_num,
      by norm_num [zoomUnit, testEnv]⟩,
    click_roundtrip_at_default_offset (testEnv 3 4 7 1 2 4) 2 5 1
      (by norm_num [testEnv]) (by norm_num [testEnv]) (by norm_num)
      (by norm_num [zoomUnit, testEnv])⟩

/-- C10 counterexample: with constants summing to 40 but `offsetX = 0`
(different from the default), the tick of index 0 is drawn at position 0
(`lineTickStart = 0`, and its long stroke is in `draw`'s output), yet a
click at that position (region left 0) fires no callback at all —
`relativePosition = -40 < 0` — where the claim predicts an invocation
with `0 * zoomUnit + (0 - 40) = -40`. -/
theorem click_uses_constant_not_offsetX_counterexample :
    (testEnv 40 0 0 1 1 1).offsetX ≠ defaultOffsetX (testEnv 40 0 0 1 1 1) ∧
    lineTickStart (zoomUnit (testEnv 40 0 0 1 1 1)) 0 (testEnv 40 0 0 1 1 1).offsetX 0
      = 0 ∧
    CanvasOp.strokeLine "#d4d4d8" 0 32 0 40 ∈ draw (testEnv 40 0 0 1 1 1) 0 2 40 ∧
    handleTimelineClick (testEnv 40 0 0 1 1 1) true true 0 0 0 = none := by
  refine ⟨by norm_num [testEnv, defaultOffsetX],
    by norm_num [lineTickStart, zoomUnit, testEnv], ?_,
    by norm_num [handleTimelineClick, testEnv]⟩
  simp only [draw, List.mem_cons, List.mem_append]
  refine Or.inr (Or.inr ?_)
  rw [lineOps, List.mem_flatMap]
  refine ⟨0, ?_, ?_⟩
  · have h : rangeLength (testEnv 40 0 0 1 1 1) 0 2 = 2 := by
      norm_num [rangeLength, minRange, maxRange, zoomUnit, testEnv]
    rw [List.mem_range, h]
    decide
  · norm_num [minRange, zoomUnit, testEnv, lineOpsFor, List.range_succ]

/-- C10 (amended): `handleTimelineClick` subtracts only the constant
`TIMELINE_OFFSET_X + TIMELINE_OFFSET_CANVAS_LEFT` (its result is unchanged
under any change of the `offsetX` prop), so with `offsetX` different from
that constant, a click landing exactly on the drawn position of tick
index `i` — provided the resulting relative position is nonnegative —
invokes the callback with `i * zoomUnit + (offsetX - constant)` instead of
`i * zoomUnit`. -/
theorem click_uses_constant_not_offsetX (E : RulerEnv) (i : ℤ)
    (rectLeft scrollPos : ℚ)
    (hne : E.offsetX ≠ defaultOffsetX E)
    (hrel : 0 ≤ (i : ℚ) * zoomUnit E - scrollPos + E.offsetX - defaultOffsetX E) :
    handleTimelineClick E true true rectLeft scrollPos
        (lineTickStart (zoomUnit E) scrollPos E.offsetX i + rectLeft)
      = some ((i : ℚ) * zoomUnit E + (E.offsetX - defaultOffsetX E)) ∧
    ∀ F : RulerEnv, F.TIMELINE_OFFSET_X = E.TIMELINE_OFFSET_X →
      F.TIMELINE_OFFSET_CANVAS_LEFT = E.TIMELINE_OFFSET_CANVAS_LEFT →
      ∀ (cp ocp : Bool) (rL sp x : ℚ),
        handleTimelineClick F cp ocp rL sp x
          = handleTimelineClick E cp ocp rL sp x := by
  constructor
  · have key : lineTickStart (zoomUnit E) scrollPos E.offsetX i + rectLeft - rectLeft
        - (E.TIMELINE_OFFSET_X + E.TIMELINE_OFFSET_CANVAS_LEFT)
        = (i : ℚ) * zoomUnit E - scrollPos + E.offsetX - defaultOffsetX E := by
      rw [lineTickStart, defaultOffsetX]
      ring
    simp only [handleTimelineClick, Bool.not_true, Bool.or_self, Bool.false_eq_true,
      if_false, key, ge_iff_le]
    rw [if_pos hrel]
    congr 1
    ring
  · intro F h1 h2 cp ocp rL sp x
    rw [handleTimelineClick, handleTimelineClick, h1, h2]

/-- Witness for C10 (amended): constants 10 and 5, `offsetX = 20 ≠ 15`,
tick index 1, scroll 0, region left 3 — the callback value is
`1 * zoomUnit + (20 - 15)`. -/
theorem click_uses_constant_not_offsetX_witness :
    ((testEnv 10 5 20 1 1 4).offsetX ≠ defaultOffsetX (testEnv 10 5 20 1 1 4) ∧
      0 ≤ ((1 : ℤ) : ℚ) * zoomUnit (testEnv 10 5 20 1 1 4) - 0 +
        (testEnv 10 5 20 1 1 4).offsetX - defaultOffsetX (testEnv 10 5 20 1 1 4)) ∧
    handleTimelineClick (testEnv 10 5 20 1 1 4) true true 3 0
        (lineTickStart (zoomUnit (testEnv 10 5 20 1 1 4)) 0
          (testEnv 10 5 20 1 1 4).offsetX 1 + 3)
      = some (((1 : ℤ) : ℚ) * zoomUnit (testEnv 10 5 20 1 1 4) +
          ((testEnv 10 5 20 1 1 4).offsetX - defaultOffsetX (testEnv 10 5 20 1 1 4))) :=
  ⟨⟨by norm_num [testEnv, defaultOffsetX],
      by norm_num [testEnv, defaultOffsetX, zoomUnit]⟩,
    (click_uses_constant_not_offsetX (testEnv 10 5 20 1 1 4) 1 3 0
      (by norm_num [testEnv, defaultOffsetX])
      (by norm_num [testEnv, defaultOffsetX, zoomUnit])).1⟩

/-- C6 counterexample: with `viewportWidth = 0`, `scrollOffset = 0` and
zoom = unit = 1, `draw` still fills a label — the tick at index 0 passes
the `±zoomUnit` slack test of the text loop — so it is not true that
nothing is drawn. -/
theorem zero_width_draw_counterexample :
    (draw (testEnv 10 0 10 1 1 4) 0 0 40).any CanvasOp.isFillText = true := by
  norm_num [draw, textOps, lineOps, textOpFor, lineOpsFor, rangeLength, minRange,
    maxRange, zoomUnit, testEnv, List.range_succ, CanvasOp.isFillText]

/-- C6 (amended): when `viewportWidth` is zero (any `scrollOffset ≥ 0`,
`zoom > 0`, `unit > 0`), `draw` strokes no tick mark — the `[0, width)`
test of the line loop is unsatisfiable — though text labels inside the
`±zoomUnit` slack window may still be filled. -/
theorem zero_width_draws_no_marks (E : RulerEnv) (scrollPos height : ℚ)
    (hsp : 0 ≤ scrollPos) (hz : 0 < E.scale.zoom) (hu : 0 < E.scale.unit) :
    (draw E scrollPos 0 height).all (fun op => !op.isStrokeLine) = true := by
  rw [List.all_eq_true]
  intro op hop
  simp only [draw, List.mem_cons, List.mem_append] at hop
  rcases hop with rfl | h | h
  · rfl
  · rw [textOps, List.mem_filterMap] at h
    obtain ⟨i, -, hi⟩ := h
    obtain ⟨t, x, rfl⟩ := textOpFor_shape _ _ _ _ _ hi
    rfl
  · rw [lineOps, List.mem_flatMap] at h
    obtain ⟨i, -, hi⟩ := h
    obtain ⟨c, pos, ls, -, h0, hlt⟩ := lineOpsFor_shape _ _ _ _ _ hi
    exact absurd hlt (not_lt.mpr h0)

/-- Witness for C6 (amended) at `scrollOffset = 5`, zoom = unit = 1. -/
theorem zero_width_draws_no_marks_witness :
    (0 ≤ (5 : ℚ) ∧ 0 < (testEnv 10 0 10 1 1 4).scale.zoom ∧
      0 < (testEnv 10 0 10 1 1 4).scale.unit) ∧
    (draw (testEnv 10 0 10 1 1 4) 5 0 40).all (fun op => !op.isStrokeLine) = true :=
  ⟨⟨by norm_num, by norm_num [testEnv], by norm_num [testEnv]⟩,
    zero_width_draws_no_marks (testEnv 10 0 10 1 1 4) 5 40 (by norm_num)
      (by norm_num [testEnv]) (by norm_num [testEnv])⟩

/-- C7: for a visible (nonnegative) tick index, the line loop emits
exactly the spec's sub-ticks: `segments` evenly spaced marks at
`startPos + (j/segments) * zoomUnit`, those outside `[0, width)` skipped,
`j = 0` long and prominent, `j ≥ 1` short and muted — given that the long
and short line sizes differ. -/
theorem subticks_match_segments_spec (E : RulerEnv) (scrollPos width : ℚ)
    (value : ℤ) (hv : 0 ≤ value)
    (hls : E.longLineSize ≠ E.shortLineSize) :
    lineOpsFor E scrollPos width value =
      subTicksSpec (lineTickStart (zoomUnit E) scrollPos E.offsetX value)
        (zoomUnit E) width E.longLineSize E.shortLineSize E.scale.segments := by
  rw [lineOpsFor, if_neg (not_lt.mpr hv), subTicksSpec]
  refine List.filterMap_congr ?_
  intro j hj
  rw [List.mem_range] at hj
  have hmod : j % E.scale.segments = j := Nat.mod_eq_of_lt hj
  simp only [hmod, lineTickStart]
  by_cases h0 : j = 0
  · subst h0
    simp [hls]
  · simp [h0]

/-- Witness for C7 at segments = 2, tick index 0, `offsetX = 10`,
viewport width 50. -/
theorem subticks_match_segments_spec_witness :
    ((0 : ℤ) ≤ 0 ∧
      (testEnv 0 0 10 1 1 2).longLineSize ≠ (testEnv 0 0 10 1 1 2).shortLineSize) ∧
    lineOpsFor (testEnv 0 0 10 1 1 2) 0 50 0 =
      subTicksSpec
        (lineTickStart (zoomUnit (testEnv 0 0 10 1 1 2)) 0
          (testEnv 0 0 10 1 1 2).offsetX 0)
        (zoomUnit (testEnv 0 0 10 1 1 2)) 50 (testEnv 0 0 10 1 1 2).longLineSize
        (testEnv 0 0 10 1 1 2).shortLineSize (testEnv 0 0 10 1 1 2).scale.segments :=
  ⟨⟨by norm_num, by norm_num [testEnv]⟩,
    subticks_match_segments_spec (testEnv 0 0 10 1 1 2) 0 50 0 (by norm_num)
      (by norm_num [testEnv])⟩

/-- C4: from idle, a press at clientX 50 followed by document moves at 80
and 30 (scroll 0, region left 0, leading offset 10) produces the callback
sequence 40, 70, 20 in order; the release returns to the idle state, where
the document listeners are gone, so later moves (100 and 7 in the trace,
and any move sequence from idle) invoke no callback. -/
theorem drag_sequence_and_release :
    runEvents (testEnv 10 0 10 1 1 4) true true 0 0 false
        [RulerEvent.mouseDown 50, RulerEvent.mouseMove 80, RulerEvent.mouseMove 30,
         RulerEvent.mouseUp, RulerEvent.mouseMove 100, RulerEvent.mouseMove 7]
      = [40, 70, 20] ∧
    ∀ xs : List ℚ,
      runEvents (testEnv 10 0 10 1 1 4) true true 0 0 false
        (xs.map RulerEvent.mouseMove) = [] := by
  constructor
  · norm_num [runEvents, rulerStep, handleTimelineClick, testEnv]
  · intro xs
    induction xs with
    | nil => rfl
    | cons x xs ih => simpa [runEvents, rulerStep] using ih
